import Mathlib

/-!
Shallow embedding of the etcd registry adapter (`src/etcd/etcd.go`).

The Go package constructs, at factory time, an adapter bound to exactly one
of two etcd client generations (a legacy v0 client or a current client),
chosen by probing `<endpoint>/version` and matching the body against the
regular expression `0\.4\.*`.  The adapter then exposes Ping / Register /
Deregister / Refresh / Services, each syncing the cluster view first and
dispatching on whichever client handle is non-nil.

Modelling choices:
  * Network and file-system effects are passed in explicitly: `FileWorld`
    supplies `ioutil.ReadFile` / PEM-parsing / key-pair-loading outcomes,
    `probeBody` is the body of the `GET /version` response (`none` models a
    transport error), and `ClientEnv` maps each client-library call to the
    error it returns (`none` = success).  Errors are a type parameter `ε`
    so that "returned unchanged" is meaningful.
  * `log.Fatal` at construction time is modelled as `Except.error`;
    `log.Println` lines are collected in the operation outcome.
  * Each operation records the exact sequence of client-library calls it
    issues (`ClientCall`), so that "attempts the store operation",
    "no retry" and "dispatches on one handle" are statable.
-/

namespace EtcdSpec

/-- The fields of `bridge.Service` that the etcd adapter reads
(`Name`, `ID`, `IP`, `Port`, `TTL`). -/
structure Service where
  ID : String
  Name : String
  IP : String
  Port : Nat
  TTL : Nat
deriving DecidableEq

/-- Go `net.JoinHostPort`: if the host contains a colon (an IPv6 literal),
bracket it; otherwise plain `host:port`. -/
def joinHostPort (host port : String) : String :=
  if host.data.contains ':' then "[" ++ host ++ "]:" ++ port
  else host ++ ":" ++ port

/-- One attempt of the regular expression `0\.4\.*` anchored at the head of
the input.  The pattern is literal `0`, literal `.`, literal `4`, then zero
or more literal dots (`\.` starred) — the starred part always matches the
empty string, so only the first three characters decide the attempt. -/
def matchHere04 : List Char → Bool
  | a :: b :: c :: _ => a == '0' && b == '.' && c == '4'
  | _ => false

/-- Go `regexp.Match("0\\.4\\.*", body)`: unanchored, so the pattern is
tried at every start position of the body. -/
def regexpMatch04 : List Char → Bool
  | [] => false
  | c :: rest => matchHere04 (c :: rest) || regexpMatch04 rest

/-- The three TLS command-line flags (`-etcd-cert-file`, `-etcd-key-file`,
`-etcd-ca-file`); the empty string means unset. -/
structure Config where
  certFile : String
  keyFile : String
  caFile : String
deriving DecidableEq

/-- File-system effects used by `createTransport`: `read` is
`ioutil.ReadFile` (`none` = read error), `appendCertsOk` is whether
`x509.CertPool.AppendCertsFromPEM` accepts the bytes, `loadKeyPairOk` is
whether `tls.LoadX509KeyPair` succeeds. -/
structure FileWorld where
  read : String → Option String
  appendCertsOk : String → Bool
  loadKeyPairOk : String → String → Bool

/-- The observable outcome of `createTransport`: whether a CA pool was
installed and whether a client certificate was loaded (the fixed dial /
keep-alive / handshake timeouts carry no information). -/
structure Transport where
  hasRootCAs : Bool
  hasClientCert : Bool
deriving DecidableEq

/-- Errors `createTransport` can return (the underlying read / key-pair
error, identified by the offending path(s)). -/
inductive TransportErr
  | caReadError (path : String)
  | keyPairError (certPath keyPath : String)
deriving DecidableEq

/-- `createTransport` from `etcd.go`: if a CA file is configured, read it
(read failure aborts; an unparseable PEM is silently ignored); if both cert
and key files are configured, load the pair (failure aborts). -/
def createTransport (cfg : Config) (w : FileWorld) : Except TransportErr Transport :=
  let caStep : Except TransportErr Bool :=
    if cfg.caFile ≠ "" then
      match w.read cfg.caFile with
      | none => .error (.caReadError cfg.caFile)
      | some certBytes => .ok (w.appendCertsOk certBytes)
    else .ok false
  match caStep with
  | .error e => .error e
  | .ok roots =>
    if cfg.certFile ≠ "" && cfg.keyFile ≠ "" then
      if w.loadKeyPairOk cfg.certFile cfg.keyFile then
        .ok { hasRootCAs := roots, hasClientCert := true }
      else .error (.keyPairError cfg.certFile cfg.keyFile)
    else .ok { hasRootCAs := roots, hasClientCert := false }

/-- `EtcdAdapter`: the two nilable client handles (at most one is set by the
factory) and the key-path taken from the URI.  The handles carry no data of
their own; only which one is set matters for dispatch. -/
structure EtcdAdapter where
  client : Option Unit
  client2 : Option Unit
  path : String
deriving DecidableEq

/-- The three `log.Fatal` construction failures in `Factory.New`. -/
inductive FatalErr
  | transportError (e : TransportErr)
  | versionError
  | clientCreateError
deriving DecidableEq

/-- Outcome of `Factory.New`: the constructed adapter (or fatal error) plus
the HTTP GET requests issued, in order. -/
structure NewResult where
  result : Except FatalErr EtcdAdapter
  requests : List String

/-- `Factory.New` from `etcd.go`: build the transport, derive the scheme
and endpoint URL, probe `<url>/version`, and bind the legacy client when
the body matches `0\.4\.*`, the current client otherwise. -/
def factoryNew (cfg : Config) (w : FileWorld) (uriHost uriPath : String)
    (probeBody : Option String) (client2Ok : Bool) : NewResult :=
  match createTransport cfg w with
  | .error e => { result := .error (.transportError e), requests := [] }
  | .ok _ =>
    let scheme := if cfg.caFile ≠ "" || cfg.certFile ≠ "" then "https://" else "http://"
    let url0 := if uriHost ≠ "" then scheme ++ uriHost else scheme ++ "127.0.0.1:2379"
    let req := url0 ++ "/version"
    match probeBody with
    | none => { result := .error .versionError, requests := [req] }
    | some body =>
      if regexpMatch04 body.data then
        { result := .ok { client := some (), client2 := none, path := uriPath },
          requests := [req] }
      else if client2Ok then
        { result := .ok { client := none, client2 := some (), path := uriPath },
          requests := [req] }
      else
        { result := .error .clientCreateError, requests := [req] }

/-- Which client generation a call goes through. -/
inductive Handle
  | legacy
  | current
deriving DecidableEq

/-- The client-library calls the adapter can issue. -/
inductive ClientCall
  | syncLegacy
  | syncCurrent
  | sendRequest (method p : String)
  | kapiGet (key : String)
  | setLegacy (key value : String) (ttl : Nat)
  | kapiSet (key value : String) (ttlSeconds : Nat)
  | deleteLegacy (key : String) (recursive : Bool)
  | kapiDelete (key : String) (recursive : Bool)
deriving DecidableEq

/-- The client generation each call belongs to. -/
def ClientCall.handle : ClientCall → Handle
  | .syncLegacy => .legacy
  | .sendRequest _ _ => .legacy
  | .setLegacy _ _ _ => .legacy
  | .deleteLegacy _ _ => .legacy
  | .syncCurrent => .current
  | .kapiGet _ => .current
  | .kapiSet _ _ _ => .current
  | .kapiDelete _ _ => .current

/-- Whether a call touches the store (everything except cluster sync). -/
def ClientCall.isStore : ClientCall → Bool
  | .syncLegacy => false
  | .syncCurrent => false
  | _ => true

/-- Responses of the two client libraries, with error type `ε`:
`syncLegacyOk` is the boolean result of the legacy `SyncCluster`,
`syncCurrentErr` the error of the current client's `Sync`, and `respond`
the error returned by each non-sync call (`none` = success). -/
structure ClientEnv (ε : Type) where
  syncLegacyOk : Bool
  syncCurrentErr : Option ε
  respond : ClientCall → Option ε

/-- The sync call made by `syncEtcdCluster`, chosen by the nil check on the
legacy handle. -/
def syncCall (r : EtcdAdapter) : ClientCall :=
  if r.client.isSome then .syncLegacy else .syncCurrent

/-- The `result` boolean computed by `syncEtcdCluster`: the legacy boolean,
or "current `Sync` returned nil". -/
def syncResult {ε : Type} (r : EtcdAdapter) (env : ClientEnv ε) : Bool :=
  if r.client.isSome then env.syncLegacyOk else env.syncCurrentErr.isNone

/-- `syncEtcdCluster` from `etcd.go`: issue the sync on the bound client
and log (never fail) when it was unsuccessful.  Returns the calls made and
the log lines emitted. -/
def syncEtcdCluster {ε : Type} (r : EtcdAdapter) (env : ClientEnv ε) :
    List ClientCall × List String :=
  ([syncCall r],
    if syncResult r env then [] else ["etcd: sync cluster was unsuccessful"])

/-- What one adapter operation did: the error it returned to the caller,
the client calls it issued (in order) and the log lines it printed. -/
structure OpOutcome (ε : Type) where
  err : Option ε
  calls : List ClientCall
  logs : List String
deriving DecidableEq

/-- The key built inline by Register / Deregister:
`r.path + "/" + service.Name + "/" + service.ID`. -/
def computeKey (pathPre name id : String) : String :=
  pathPre ++ "/" ++ name ++ "/" ++ id

/-- The store write Register issues: legacy `Set` or keys-API `Set`, with
the derived key, `net.JoinHostPort(IP, Itoa(Port))` as value, and the
record's TTL in seconds. -/
def registerCall (r : EtcdAdapter) (service : Service) : ClientCall :=
  let p := computeKey r.path service.Name service.ID
  let addr := joinHostPort service.IP (toString service.Port)
  if r.client.isSome then .setLegacy p addr service.TTL
  else .kapiSet p addr service.TTL

/-- `EtcdAdapter.Register` from `etcd.go`: sync the cluster, issue the
write on the bound client, log on failure, and return the client error
unchanged. -/
def Register {ε : Type} (r : EtcdAdapter) (env : ClientEnv ε) (service : Service) :
    OpOutcome ε :=
  let sync := syncEtcdCluster r env
  let call := registerCall r service
  let err := env.respond call
  { err := err
    calls := sync.1 ++ [call]
    logs := sync.2 ++
      (match err with
        | some _ => ["etcd: failed to register service:"]
        | none => []) }

/-- The non-recursive delete Deregister issues on the bound client. -/
def deregisterCall (r : EtcdAdapter) (service : Service) : ClientCall :=
  let p := computeKey r.path service.Name service.ID
  if r.client.isSome then .deleteLegacy p false
  else .kapiDelete p false

/-- `EtcdAdapter.Deregister` from `etcd.go`: sync the cluster, issue the
non-recursive delete on the bound client, log on failure, and return the
client error unchanged. -/
def Deregister {ε : Type} (r : EtcdAdapter) (env : ClientEnv ε) (service : Service) :
    OpOutcome ε :=
  let sync := syncEtcdCluster r env
  let call := deregisterCall r service
  let err := env.respond call
  { err := err
    calls := sync.1 ++ [call]
    logs := sync.2 ++
      (match err with
        | some _ => ["etcd: failed to deregister service:"]
        | none => []) }

/-- `EtcdAdapter.Refresh` from `etcd.go`: literally `return r.Register(service)`. -/
def Refresh {ε : Type} (r : EtcdAdapter) (env : ClientEnv ε) (service : Service) :
    OpOutcome ε :=
  Register r env service

/-- The minimal read Ping issues: legacy raw `GET version`, or keys-API
`Get` on the store root. -/
def pingCall (r : EtcdAdapter) : ClientCall :=
  if r.client.isSome then .sendRequest "GET" "version" else .kapiGet "/"

/-- `EtcdAdapter.Ping` from `etcd.go`: sync the cluster, issue the minimal
read on the bound client, and return its error unchanged (no logging). -/
def Ping {ε : Type} (r : EtcdAdapter) (env : ClientEnv ε) : OpOutcome ε :=
  let sync := syncEtcdCluster r env
  let call := pingCall r
  let err := env.respond call
  { err := err, calls := sync.1 ++ [call], logs := sync.2 }

/-- `EtcdAdapter.Services` from `etcd.go`: always the empty slice and a nil
error; the environment is ignored and no client call is made. -/
def Services {ε : Type} (_r : EtcdAdapter) (_env : ClientEnv ε) :
    List Service × Option ε :=
  ([], none)

/-- The first store write among an operation's calls, as (key, value, TTL). -/
def writeOf {ε : Type} (o : OpOutcome ε) : Option (String × String × Nat) :=
  o.calls.findSome? fun c =>
    match c with
    | .setLegacy k v t => some (k, v, t)
    | .kapiSet k v t => some (k, v, t)
    | _ => none

/-- The key of the first store write or delete among an operation's calls. -/
def storeKeyOf {ε : Type} (o : OpOutcome ε) : Option String :=
  o.calls.findSome? fun c =>
    match c with
    | .setLegacy k _ _ => some k
    | .kapiSet k _ _ => some k
    | .deleteLegacy k _ => some k
    | .kapiDelete k _ => some k
    | _ => none

/-- The handle an adapter is bound to (by the nil check the code uses). -/
def boundHandle (r : EtcdAdapter) : Handle :=
  if r.client.isSome then .legacy else .current

/-- A world in which every file read succeeds. -/
def trivialWorld : FileWorld :=
  { read := fun _ => some ""
    appendCertsOk := fun _ => true
    loadKeyPairOk := fun _ _ => true }

/-- A world in which every file read fails. -/
def noFileWorld : FileWorld :=
  { read := fun _ => none
    appendCertsOk := fun _ => false
    loadKeyPairOk := fun _ _ => false }

/-- An adapter bound to the legacy client (as built from a `0.4.x` probe). -/
def legacyAdapter : EtcdAdapter :=
  { client := some (), client2 := none, path := "" }

/-- An adapter bound to the current client. -/
def currentAdapter : EtcdAdapter :=
  { client := none, client2 := some (), path := "" }

/-- An environment in which every call succeeds. -/
def someEnv : ClientEnv String :=
  { syncLegacyOk := true, syncCurrentErr := none, respond := fun _ => none }

/-- An environment in which every store call fails with "boom". -/
def failEnv : ClientEnv String :=
  { syncLegacyOk := true, syncCurrentErr := none, respond := fun _ => some "boom" }

/-- An environment in which cluster sync fails on both clients but store
calls succeed. -/
def failSyncEnv : ClientEnv String :=
  { syncLegacyOk := false, syncCurrentErr := some "sync down", respond := fun _ => none }

/-- The spec's scenario record {name "web", id "1", ip 10.0.0.5, port 8080,
ttl 30}. -/
def webService : Service :=
  { ID := "1", Name := "web", IP := "10.0.0.5", Port := 8080, TTL := 30 }

/-- A record whose address is an IPv6 literal. -/
def ipv6Service : Service :=
  { ID := "1", Name := "db", IP := "::1", Port := 5432, TTL := 10 }

/-- The anchored attempt of `0\.4\.*` succeeds exactly when `"0.4"` is a
prefix of the input (the starred dots may match the empty string). -/
theorem matchHere04_iff (l : List Char) :
    matchHere04 l = true ↔ ['0', '.', '4'] <+: l := by
  match l with
  | [] => simp [matchHere04]
  | [a] => simp [matchHere04, List.cons_prefix_cons]
  | [a, b] => simp [matchHere04, List.cons_prefix_cons]
  | a :: b :: c :: t =>
    simp only [matchHere04, Bool.and_eq_true, beq_iff_eq, List.cons_prefix_cons,
      List.nil_prefix, and_true, and_assoc]
    constructor
    · rintro ⟨h1, h2, h3⟩; exact ⟨h1.symm, h2.symm, h3.symm⟩
    · rintro ⟨h1, h2, h3⟩; exact ⟨h1.symm, h2.symm, h3.symm⟩

/-- The unanchored match of `0\.4\.*` succeeds exactly when `"0.4"` occurs
as a substring. -/
theorem regexpMatch04_iff (l : List Char) :
    regexpMatch04 l = true ↔ ['0', '.', '4'] <:+: l := by
  induction l with
  | nil => simp [regexpMatch04]
  | cons c rest ih =>
    show (matchHere04 (c :: rest) || regexpMatch04 rest) = true ↔ _
    simp [matchHere04_iff, ih, List.infix_cons_iff]

/-- Shape of every successfully constructed adapter: the legacy handle is
bound exactly when the version body matched `0\.4\.*`, the current handle
otherwise. -/
theorem factoryNew_ok_shape (cfg : Config) (w : FileWorld)
    (host uriPath body : String) (c2ok : Bool) (a : EtcdAdapter)
    (h : (factoryNew cfg w host uriPath (some body) c2ok).result = .ok a) :
    a.client = some () ∧ a.client2 = none ∧ regexpMatch04 body.data = true
    ∨ a.client = none ∧ a.client2 = some () ∧ regexpMatch04 body.data = false := by
  unfold factoryNew at h
  cases hc : createTransport cfg w with
  | error e => rw [hc] at h; simp at h
  | ok t =>
    rw [hc] at h
    simp only at h
    by_cases hm : regexpMatch04 body.data = true
    · left
      rw [if_pos hm] at h
      injection h with h
      subst h
      exact ⟨rfl, rfl, hm⟩
    · rw [if_neg hm] at h
      by_cases h2 : c2ok = true
      · right
        rw [if_pos h2] at h
        injection h with h
        subst h
        exact ⟨rfl, rfl, Bool.not_eq_true _ ▸ hm⟩
      · rw [if_neg h2] at h
        simp at h

/-- C1 counterexample: the version body `"0.45"` does not contain the
substring `"0.4."`, yet `Factory.New` classifies the store as Legacy and
binds the legacy client. -/
theorem C1_counterexample :
    (factoryNew { certFile := "", keyFile := "", caFile := "" } trivialWorld "h" ""
        (some "0.45") true).result
      = .ok { client := some (), client2 := none, path := "" }
    ∧ ¬ ("0.4.".data <:+: "0.45".data) :=
  ⟨rfl, by decide⟩

/-- C1 (amended): `Factory.New` binds the legacy client exactly when the
version body contains the substring `"0.4"` (the Go pattern `0\.4\.*`
requires only `0.4` followed by zero or more dots, so no trailing dot is
needed); every other body binds the current client. -/
theorem C1_version_classification (cfg : Config) (w : FileWorld)
    (host uriPath body : String) (c2ok : Bool) (a : EtcdAdapter)
    (h : (factoryNew cfg w host uriPath (some body) c2ok).result = .ok a) :
    (a.client.isSome = true ↔ "0.4".data <:+: body.data)
    ∧ (a.client2.isSome = true ↔ ¬ "0.4".data <:+: body.data) := by
  have hd : "0.4".data = ['0', '.', '4'] := rfl
  rcases factoryNew_ok_shape cfg w host uriPath body c2ok a h with
    ⟨h1, h2, h3⟩ | ⟨h1, h2, h3⟩ <;>
    rw [hd, ← regexpMatch04_iff] <;> simp [h1, h2, h3]

/-- C1 witness: a body containing `0.4` inside other text binds the legacy
client. -/
theorem C1_version_classification_witness :
    ((({ client := some (), client2 := none, path := "" } : EtcdAdapter).client.isSome = true
        ↔ "0.4".data <:+: "etcd 0.4.6".data)
      ∧ (({ client := some (), client2 := none, path := "" } : EtcdAdapter).client2.isSome = true
        ↔ ¬ "0.4".data <:+: "etcd 0.4.6".data)) :=
  C1_version_classification { certFile := "", keyFile := "", caFile := "" } trivialWorld
    "h" "" "etcd 0.4.6" true { client := some (), client2 := none, path := "" } rfl

/-- C3: `Refresh` performs exactly the same store mutation, emits the same
calls and logs, and returns exactly the same result as `Register` on the
identical record, for every adapter and environment. -/
theorem C3_refresh_eq_register {ε : Type} (r : EtcdAdapter) (env : ClientEnv ε)
    (service : Service) :
    Refresh r env service = Register r env service :=
  rfl

/-- C8: `Services` always returns the empty list and a nil error, for every
adapter binding and every environment (store state). -/
theorem C8_services_empty {ε : Type} (r : EtcdAdapter) (env : ClientEnv ε) :
    Services r env = (([] : List Service), (none : Option ε)) :=
  rfl

/-- The cluster sync is not a store call, under either binding. -/
theorem isStore_syncCall (r : EtcdAdapter) : (syncCall r).isStore = false := by
  by_cases h : r.client.isSome <;> simp [syncCall, h, ClientCall.isStore]

/-- The Register write is a store call, under either binding. -/
theorem isStore_registerCall (r : EtcdAdapter) (service : Service) :
    (registerCall r service).isStore = true := by
  by_cases h : r.client.isSome <;> simp [registerCall, h, ClientCall.isStore]

/-- The Deregister delete is a store call, under either binding. -/
theorem isStore_deregisterCall (r : EtcdAdapter) (service : Service) :
    (deregisterCall r service).isStore = true := by
  by_cases h : r.client.isSome <;> simp [deregisterCall, h, ClientCall.isStore]

/-- The Ping read is a store call, under either binding. -/
theorem isStore_pingCall (r : EtcdAdapter) : (pingCall r).isStore = true := by
  by_cases h : r.client.isSome <;> simp [pingCall, h, ClientCall.isStore]

/-- C2: every adapter built by `Factory.New` has exactly one of its two
client handles set, and each of Ping, Register, Deregister and Refresh
issues a nonempty sequence of client calls all of which go through the
bound handle — never both handles, never neither. -/
theorem C2_adapter_binding {ε : Type} (cfg : Config) (w : FileWorld)
    (host uriPath body : String) (c2ok : Bool) (a : EtcdAdapter)
    (h : (factoryNew cfg w host uriPath (some body) c2ok).result = .ok a)
    (env : ClientEnv ε) (service : Service) :
    a.client.isSome ≠ a.client2.isSome
    ∧ ((Ping a env).calls ≠ [] ∧ ∀ c ∈ (Ping a env).calls, c.handle = boundHandle a)
    ∧ ((Register a env service).calls ≠ []
        ∧ ∀ c ∈ (Register a env service).calls, c.handle = boundHandle a)
    ∧ ((Deregister a env service).calls ≠ []
        ∧ ∀ c ∈ (Deregister a env service).calls, c.handle = boundHandle a)
    ∧ ((Refresh a env service).calls ≠ []
        ∧ ∀ c ∈ (Refresh a env service).calls, c.handle = boundHandle a) := by
  rcases factoryNew_ok_shape cfg w host uriPath body c2ok a h with
    ⟨h1, h2, _⟩ | ⟨h1, h2, _⟩ <;>
  · simp [Ping, Register, Deregister, Refresh, syncEtcdCluster, syncCall, pingCall,
      registerCall, deregisterCall, boundHandle, ClientCall.handle, h1, h2]

/-- C2 witness: the adapter built from a `0.4.0` probe body satisfies the
binding invariant and single-handle dispatch on concrete operations. -/
theorem C2_adapter_binding_witness :
    (({ client := some (), client2 := none, path := "" } : EtcdAdapter).client.isSome
      ≠ ({ client := some (), client2 := none, path := "" } : EtcdAdapter).client2.isSome)
    ∧ ((Ping { client := some (), client2 := none, path := "" } someEnv).calls ≠ []
        ∧ ∀ c ∈ (Ping { client := some (), client2 := none, path := "" } someEnv).calls,
            c.handle = boundHandle { client := some (), client2 := none, path := "" })
    ∧ ((Register { client := some (), client2 := none, path := "" } someEnv webService).calls ≠ []
        ∧ ∀ c ∈ (Register { client := some (), client2 := none, path := "" } someEnv
            webService).calls,
            c.handle = boundHandle { client := some (), client2 := none, path := "" })
    ∧ ((Deregister { client := some (), client2 := none, path := "" } someEnv webService).calls ≠ []
        ∧ ∀ c ∈ (Deregister { client := some (), client2 := none, path := "" } someEnv
            webService).calls,
            c.handle = boundHandle { client := some (), client2 := none, path := "" })
    ∧ ((Refresh { client := some (), client2 := none, path := "" } someEnv webService).calls ≠ []
        ∧ ∀ c ∈ (Refresh { client := some (), client2 := none, path := "" } someEnv
            webService).calls,
            c.handle = boundHandle { client := some (), client2 := none, path := "" }) :=
  C2_adapter_binding { certFile := "", keyFile := "", caFile := "" } trivialWorld "h" ""
    "0.4.0" true { client := some (), client2 := none, path := "" } rfl someEnv webService

/-- The (key, value, TTL) triple Register hands to the store, under either
binding: the derived key, `JoinHostPort(IP, Itoa(Port))`, and the record's
TTL. -/
theorem writeOf_Register {ε : Type} (r : EtcdAdapter) (env : ClientEnv ε)
    (service : Service) :
    writeOf (Register r env service)
      = some (computeKey r.path service.Name service.ID,
          joinHostPort service.IP (toString service.Port), service.TTL) := by
  by_cases h : r.client.isSome <;>
    simp [writeOf, Register, syncEtcdCluster, syncCall, registerCall, h]

/-- The key Register touches, under either binding. -/
theorem storeKeyOf_Register {ε : Type} (r : EtcdAdapter) (env : ClientEnv ε)
    (service : Service) :
    storeKeyOf (Register r env service)
      = some (computeKey r.path service.Name service.ID) := by
  by_cases h : r.client.isSome <;>
    simp [storeKeyOf, Register, syncEtcdCluster, syncCall, registerCall, h]

/-- The key Deregister touches, under either binding. -/
theorem storeKeyOf_Deregister {ε : Type} (r : EtcdAdapter) (env : ClientEnv ε)
    (service : Service) :
    storeKeyOf (Deregister r env service)
      = some (computeKey r.path service.Name service.ID) := by
  by_cases h : r.client.isSome <;>
    simp [storeKeyOf, Deregister, syncEtcdCluster, syncCall, deregisterCall, h]

/-- C5: under either binding, a failing store call in Register or
Deregister returns the underlying client error unchanged, issues exactly
one store call (no retry), and logs a line prefixed `"etcd:"`. -/
theorem C5_error_propagation {ε : Type} (r : EtcdAdapter) (env : ClientEnv ε)
    (service : Service) (e : ε) :
    (env.respond (registerCall r service) = some e →
      (Register r env service).err = some e
      ∧ (Register r env service).calls.filter ClientCall.isStore
          = [registerCall r service]
      ∧ ∃ line ∈ (Register r env service).logs, "etcd:".data <+: line.data)
    ∧ (env.respond (deregisterCall r service) = some e →
      (Deregister r env service).err = some e
      ∧ (Deregister r env service).calls.filter ClientCall.isStore
          = [deregisterCall r service]
      ∧ ∃ line ∈ (Deregister r env service).logs, "etcd:".data <+: line.data) := by
  constructor
  · intro hresp
    refine ⟨by simp [Register, hresp], ?_, ?_⟩
    · simp [Register, syncEtcdCluster, List.filter_append, isStore_syncCall,
        isStore_registerCall]
    · exact ⟨"etcd: failed to register service:",
        by simp [Register, syncEtcdCluster, hresp], by decide⟩
  · intro hresp
    refine ⟨by simp [Deregister, hresp], ?_, ?_⟩
    · simp [Deregister, syncEtcdCluster, List.filter_append, isStore_syncCall,
        isStore_deregisterCall]
    · exact ⟨"etcd: failed to deregister service:",
        by simp [Deregister, syncEtcdCluster, hresp], by decide⟩

/-- C5 witness: a failing legacy write surfaces "boom" unchanged, makes one
store call and logs an "etcd:" line. -/
theorem C5_error_propagation_witness :
    (Register legacyAdapter failEnv webService).err = some "boom"
    ∧ (Register legacyAdapter failEnv webService).calls.filter ClientCall.isStore
        = [registerCall legacyAdapter webService]
    ∧ ∃ line ∈ (Register legacyAdapter failEnv webService).logs,
        "etcd:".data <+: line.data :=
  (C5_error_propagation legacyAdapter failEnv webService "boom").1 rfl

/-- C6: a cluster-sync failure is never surfaced to the caller and never
prevents the store operation: each of Register, Deregister and Ping still
issues its store call, and the error it returns is exactly the store
call's own outcome. -/
theorem C6_sync_failure_harmless {ε : Type} (r : EtcdAdapter) (env : ClientEnv ε)
    (service : Service) (_hsync : syncResult r env = false) :
    ((Register r env service).err = env.respond (registerCall r service)
      ∧ registerCall r service ∈ (Register r env service).calls
      ∧ (registerCall r service).isStore = true)
    ∧ ((Deregister r env service).err = env.respond (deregisterCall r service)
      ∧ deregisterCall r service ∈ (Deregister r env service).calls
      ∧ (deregisterCall r service).isStore = true)
    ∧ ((Ping r env).err = env.respond (pingCall r)
      ∧ pingCall r ∈ (Ping r env).calls
      ∧ (pingCall r).isStore = true) :=
  ⟨⟨rfl, by simp [Register, syncEtcdCluster], isStore_registerCall r service⟩,
   ⟨rfl, by simp [Deregister, syncEtcdCluster], isStore_deregisterCall r service⟩,
   ⟨rfl, by simp [Ping, syncEtcdCluster], isStore_pingCall r⟩⟩

/-- C6 witness: with the legacy sync failing, Register / Deregister / Ping
still issue their store calls and return the store outcomes. -/
theorem C6_sync_failure_harmless_witness :
    ((Register legacyAdapter failSyncEnv webService).err
        = failSyncEnv.respond (registerCall legacyAdapter webService)
      ∧ registerCall legacyAdapter webService
          ∈ (Register legacyAdapter failSyncEnv webService).calls
      ∧ (registerCall legacyAdapter webService).isStore = true)
    ∧ ((Deregister legacyAdapter failSyncEnv webService).err
        = failSyncEnv.respond (deregisterCall legacyAdapter webService)
      ∧ deregisterCall legacyAdapter webService
          ∈ (Deregister legacyAdapter failSyncEnv webService).calls
      ∧ (deregisterCall legacyAdapter webService).isStore = true)
    ∧ ((Ping legacyAdapter failSyncEnv).err
        = failSyncEnv.respond (pingCall legacyAdapter)
      ∧ pingCall legacyAdapter ∈ (Ping legacyAdapter failSyncEnv).calls
      ∧ (pingCall legacyAdapter).isStore = true) :=
  C6_sync_failure_harmless legacyAdapter failSyncEnv webService rfl

/-- C7: Register writes the derived key `path/Name/ID` with value
`JoinHostPort(IP, Itoa(Port))` and TTL = record TTL, under either binding;
in particular the legacy adapter writes `/web/1 ↦ "10.0.0.5:8080"` with TTL
30 for the spec's scenario record. -/
theorem C7_register_write {ε : Type} (r : EtcdAdapter) (env : ClientEnv ε)
    (service : Service) :
    writeOf (Register r env service)
      = some (computeKey r.path service.Name service.ID,
          joinHostPort service.IP (toString service.Port), service.TTL)
    ∧ registerCall legacyAdapter webService
        = .setLegacy "/web/1" "10.0.0.5:8080" 30 :=
  ⟨writeOf_Register r env service, rfl⟩

/-- C9: if a CA bundle path is configured and reading it fails, adapter
construction fails with the transport configuration error, and no HTTP
request (in particular no version probe) is ever issued. -/
theorem C9_ca_read_failure (cfg : Config) (w : FileWorld) (host uriPath : String)
    (probeBody : Option String) (c2ok : Bool)
    (hca : cfg.caFile ≠ "") (hread : w.read cfg.caFile = none) :
    (factoryNew cfg w host uriPath probeBody c2ok).result
        = .error (.transportError (.caReadError cfg.caFile))
    ∧ (factoryNew cfg w host uriPath probeBody c2ok).requests = [] := by
  have hct : createTransport cfg w = .error (.caReadError cfg.caFile) := by
    unfold createTransport
    rw [if_pos hca, hread]
  have hnew : factoryNew cfg w host uriPath probeBody c2ok
      = { result := .error (.transportError (.caReadError cfg.caFile)), requests := [] } := by
    unfold factoryNew
    rw [hct]
  rw [hnew]
  exact ⟨rfl, rfl⟩

/-- C9 witness: a nonexistent CA bundle file aborts construction before any
network request. -/
theorem C9_ca_read_failure_witness :
    (factoryNew { certFile := "", keyFile := "", caFile := "/etc/etcd/ca.pem" }
        noFileWorld "h" "" (some "2.3.7") true).result
      = .error (.transportError (.caReadError "/etc/etcd/ca.pem"))
    ∧ (factoryNew { certFile := "", keyFile := "", caFile := "/etc/etcd/ca.pem" }
        noFileWorld "h" "" (some "2.3.7") true).requests = [] :=
  C9_ca_read_failure { certFile := "", keyFile := "", caFile := "/etc/etcd/ca.pem" }
    noFileWorld "h" "" (some "2.3.7") true (by decide) rfl

/-- C10: when the record's IP contains a colon (an IPv6 literal), the value
Register writes is the bracketed `[ip]:port` of `net.JoinHostPort`, which
differs from the plain concatenation `ip ++ ":" ++ port`; when it does
not, the two coincide. -/
theorem C10_ipv6_bracketed {ε : Type} (r : EtcdAdapter) (env : ClientEnv ε)
    (service : Service) :
    (service.IP.data.contains ':' = true →
      writeOf (Register r env service)
        = some (computeKey r.path service.Name service.ID,
            "[" ++ service.IP ++ "]:" ++ toString service.Port, service.TTL)
      ∧ "[" ++ service.IP ++ "]:" ++ toString service.Port
          ≠ service.IP ++ ":" ++ toString service.Port)
    ∧ (service.IP.data.contains ':' = false →
      writeOf (Register r env service)
        = some (computeKey r.path service.Name service.ID,
            service.IP ++ ":" ++ toString service.Port, service.TTL)) := by
  constructor
  · intro h
    constructor
    · rw [writeOf_Register]
      simp only [joinHostPort]
      rw [if_pos h]
    · intro hEq
      have hl := congrArg String.length hEq
      simp only [String.length_append] at hl
      have h1 : ("[" : String).length = 1 := rfl
      have h2 : ("]:" : String).length = 2 := rfl
      have h3 : (":" : String).length = 1 := rfl
      rw [h1, h2, h3] at hl
      omega
  · intro h
    rw [writeOf_Register]
    simp only [joinHostPort]
    rw [if_neg (by rw [h]; exact Bool.false_ne_true)]

/-- C10 witness: the IPv6 record `::1:5432` is written bracketed. -/
theorem C10_ipv6_bracketed_witness :
    writeOf (Register currentAdapter someEnv ipv6Service)
      = some (computeKey currentAdapter.path ipv6Service.Name ipv6Service.ID,
          "[" ++ ipv6Service.IP ++ "]:" ++ toString ipv6Service.Port, ipv6Service.TTL)
    ∧ "[" ++ ipv6Service.IP ++ "]:" ++ toString ipv6Service.Port
        ≠ ipv6Service.IP ++ ":" ++ toString ipv6Service.Port :=
  (C10_ipv6_bracketed currentAdapter someEnv ipv6Service).1 rfl

/-- Splitting at a separator character is unambiguous when the left parts
do not contain the separator. -/
theorem append_sep_inj :
    ∀ (a b x y : List Char), '/' ∉ a → '/' ∉ b →
      a ++ '/' :: x = b ++ '/' :: y → a = b ∧ x = y := by
  intro a
  induction a with
  | nil =>
    intro b x y _ hb h
    cases b with
    | nil =>
      simp only [List.nil_append, List.cons.injEq] at h
      exact ⟨rfl, h.2⟩
    | cons bh bt =>
      simp only [List.nil_append, List.cons_append, List.cons.injEq] at h
      exact absurd (by rw [← h.1]; exact List.mem_cons_self '/' bt) hb
  | cons ah ta ih =>
    intro b x y ha hb h
    cases b with
    | nil =>
      simp only [List.cons_append, List.nil_append, List.cons.injEq] at h
      exact absurd (by rw [h.1]; exact List.mem_cons_self '/' ta) ha
    | cons bh bt =>
      simp only [List.cons_append, List.cons.injEq] at h
      obtain ⟨hab, h2⟩ := h
      have hrec := ih bt x y (fun hm => ha (List.mem_cons_of_mem _ hm))
        (fun hm => hb (List.mem_cons_of_mem _ hm)) h2
      exact ⟨by rw [hab, hrec.1], hrec.2⟩

/-- With a fixed path, the derived store key determines name and instance
id, provided neither name contains a slash. -/
theorem computeKey_inj (p n1 i1 n2 i2 : String)
    (h1 : '/' ∉ n1.data) (h2 : '/' ∉ n2.data)
    (h : computeKey p n1 i1 = computeKey p n2 i2) : n1 = n2 ∧ i1 = i2 := by
  have hd := congrArg String.data h
  simp only [computeKey, String.data_append] at hd
  simp only [List.append_assoc, List.singleton_append] at hd
  have hd2 := List.append_cancel_left hd
  injection hd2 with _ hd3
  have hfin := append_sep_inj n1.data n2.data i1.data i2.data h1 h2 hd3
  exact ⟨String.ext hfin.1, String.ext hfin.2⟩

/-- C4 counterexample: the derivation is not collision-free on arbitrary
pairs — the distinct pairs ("a/b", "c") and ("a", "b/c") produce the same
key under the same path. -/
theorem C4_counterexample :
    computeKey "p" "a/b" "c" = computeKey "p" "a" "b/c"
    ∧ (("a/b", "c") : String × String) ≠ ("a", "b/c") :=
  ⟨rfl, by decide⟩

/-- C4 (amended): the key is derived deterministically as
`path ++ "/" ++ Name ++ "/" ++ ID`, the identical derivation is used by
Register, Deregister and Refresh, and it is collision-free across distinct
(name, id) pairs whose names contain no slash. -/
theorem C4_storekey_derivation :
    (∀ (ε : Type) (r : EtcdAdapter) (env : ClientEnv ε) (service : Service),
      storeKeyOf (Register r env service)
          = some (computeKey r.path service.Name service.ID)
      ∧ storeKeyOf (Deregister r env service)
          = some (computeKey r.path service.Name service.ID)
      ∧ storeKeyOf (Refresh r env service)
          = some (computeKey r.path service.Name service.ID))
    ∧ ∀ (p n1 i1 n2 i2 : String), '/' ∉ n1.data → '/' ∉ n2.data →
        computeKey p n1 i1 = computeKey p n2 i2 → n1 = n2 ∧ i1 = i2 :=
  ⟨fun _ r env service =>
    ⟨storeKeyOf_Register r env service, storeKeyOf_Deregister r env service,
      storeKeyOf_Register r env service⟩,
   computeKey_inj⟩

/-- C4 witness: the three operations derive the concrete key for the
scenario record, and slash-free names are recovered from equal keys. -/
theorem C4_storekey_derivation_witness :
    (storeKeyOf (Register legacyAdapter someEnv webService)
        = some (computeKey legacyAdapter.path webService.Name webService.ID)
      ∧ storeKeyOf (Deregister legacyAdapter someEnv webService)
        = some (computeKey legacyAdapter.path webService.Name webService.ID)
      ∧ storeKeyOf (Refresh legacyAdapter someEnv webService)
        = some (computeKey legacyAdapter.path webService.Name webService.ID))
    ∧ (("web" : String) = "web" ∧ ("1" : String) = "1") :=
  ⟨C4_storekey_derivation.1 String legacyAdapter someEnv webService,
   C4_storekey_derivation.2 "p" "web" "1" "web" "1" (by decide) (by decide) rfl⟩

end EtcdSpec
